import Mathlib

/-!
Shallow embedding of the descriptor-parsing core of the CBA-GD-PEP
repository (`analysis/descr_pars.py`, `analysis/fa_prn.py`, the statistics
accumulator of `analysis/helper.py`, and the per-article accumulator loop of
`analysis/main.py`), together with theorems settling the frozen claims.

Modelling conventions:
* a spaCy `Token` is a record of the attributes the analysed code reads
  (`lemma_`, `pos_`, `dep_`, head index, morphological case list,
  `ent_type_`, and the custom `gender` extension, default `none`);
* a `Doc` is the list of its tokens; `children` of token `i` are the tokens
  whose head index is `i` (excluding `i` itself, the spaCy root convention),
  in document order;
* Python `int` is `Int`; the float-valued GLEAN norm vectors are modelled
  over `ℚ`; Python dictionaries with `.get(k, 0)` defaults are total
  functions `String → Int` updated with `Function.update`;
* the `while`/`for` walks of the source are modelled with an explicit fuel
  argument; the wrappers pass `doc.length` fuel, enough for any walk over an
  acyclic (tree-shaped) dependency parse;
* Python truthiness of optional strings (`if g := t._.gender:`,
  `if svp_c:`) is `truthyOpt`: `none` and `some ""` are falsy.
-/

namespace CBAGD

/-- Annotated token: the attribute set the analysis code reads
(spec §3 "Token", spaCy interface of §6). -/
structure Token where
  lemma_ : String
  pos_ : String
  dep_ : String
  head : Nat
  morphCase : List String
  ent_type_ : String
  gender : Option String
deriving Repr, DecidableEq, Inhabited

abbrev Doc := List Token

/-- Token lookup; out-of-range indices give the inert default token,
which matches no syntactic pattern. -/
def tokAt (doc : Doc) (i : Nat) : Token := doc.getD i default

/-- Indices of the children of token `i`: the tokens whose head is `i`,
self excluded (spaCy root tokens are their own head), in document order. -/
def childrenIdx (doc : Doc) (i : Nat) : List Nat :=
  (List.range doc.length).filter (fun j => j != i && (tokAt doc j).head == i)

/-- Python truthiness for an optional string: `None` and `''` are falsy. -/
def truthyOpt : Option String → Option String
  | some s => if s = "" then none else some s
  | none => none

/-- `descr_pars.is_nom` (descr_pars.py line 227):
`'Nom' in t.morph.get('Case')`. -/
def is_nom (t : Token) : Bool := t.morphCase.contains "Nom"

/-- Python `str.lower()` on the character level (the ASCII case mapping of
`Char.toLower`, applied characterwise like `String.toLower`, but defined by
structural recursion so that concrete instances reduce in the kernel). -/
def strLower (s : String) : String := ⟨s.data.map Char.toLower⟩

/-- `descr_pars.SVP_DELIMITER` (descr_pars.py line 9). -/
def SVP_DELIMITER : String := ""

/-- Value of `PER_GENDER_MAPPING['PER:F']` (descr_pars.py line 10). -/
def PER_GENDER_MAPPING_F : String := "PER:weiblich"

/-- Value of `PER_GENDER_MAPPING['PER:M']` (descr_pars.py line 10). -/
def PER_GENDER_MAPPING_M : String := "PER:männlich"

/-- `descr_pars.TARGET_POS` (descr_pars.py line 11). -/
def TARGET_POS : List String := ["NOUN", "PROPN"]

/-- Gender-occurrence vector (female, male, undetermined);
spec §3 "GenderOccurrenceVector". Python ints, hence `Int`. -/
structure GOcc where
  f : Int
  m : Int
  ud : Int
deriving Repr, DecidableEq

instance : Add GOcc := ⟨fun a b => ⟨a.f + b.f, a.m + b.m, a.ud + b.ud⟩⟩

theorem GOcc.add_def (a b : GOcc) : a + b = ⟨a.f + b.f, a.m + b.m, a.ud + b.ud⟩ := rfl

/-- Contribution of the starting target token itself
(descr_pars.py lines 33-48). -/
def primaryOcc (t : Token) : GOcc :=
  match truthyOpt t.gender with
  | some g =>
      if g = "PRN:F" then ⟨1, 0, 0⟩
      else if g = "PRN:M" then ⟨0, 1, 0⟩
      else ⟨0, 0, 0⟩
  | none =>
      if t.ent_type_.startsWith "PER:" then
        if t.ent_type_ = PER_GENDER_MAPPING_F then ⟨1, 0, 0⟩
        else if t.ent_type_ = PER_GENDER_MAPPING_M then ⟨0, 1, 0⟩
        else if t.ent_type_ = "PER:NA" ∨ t.ent_type_ = "PER:AMB" then ⟨0, 0, 1⟩
        else ⟨0, 0, 0⟩
      else ⟨0, 0, 0⟩

/-- Condition of descr_pars.py line 56: a followed conjunct
(`cj`, POS in `TARGET_POS`, nominative). -/
def cjCond (doc : Doc) (j : Nat) : Bool :=
  (tokAt doc j).dep_ == "cj" && TARGET_POS.contains (tokAt doc j).pos_ && is_nom (tokAt doc j)

/-- Condition of descr_pars.py line 79: a coordinating conjunction link
(`cd`, POS `CCONJ`). -/
def cdCond (doc : Doc) (j : Nat) : Bool :=
  (tokAt doc j).dep_ == "cd" && (tokAt doc j).pos_ == "CCONJ"

/-- First child of `i` satisfying the `cj` or the `cd` condition: the
`for child in tk.children` scan of descr_pars.py lines 55-82 stops (breaks)
at the first such child. -/
def findConjChild (doc : Doc) (i : Nat) : Option Nat :=
  (childrenIdx doc i).find? (fun j => cjCond doc j || cdCond doc j)

/-- Contribution of one followed conjunct and whether the walk continues
(descr_pars.py lines 59-77): the increment mirrors `primaryOcc`, but an
unrecognized truthy gender tag or an unrecognized `PER:`-prefixed entity
label sets `new_children = False` (cuts the chain), while a conjunct with
no gender tag and no `PER:` label leaves `new_children = True`. -/
def conjOcc (t : Token) : GOcc × Bool :=
  match truthyOpt t.gender with
  | some g =>
      if g = "PRN:F" then (⟨1, 0, 0⟩, true)
      else if g = "PRN:M" then (⟨0, 1, 0⟩, true)
      else (⟨0, 0, 0⟩, false)
  | none =>
      if t.ent_type_.startsWith "PER:" then
        if t.ent_type_ = PER_GENDER_MAPPING_F then ((⟨1, 0, 0⟩ : GOcc), true)
        else if t.ent_type_ = PER_GENDER_MAPPING_M then ((⟨0, 1, 0⟩ : GOcc), true)
        else if t.ent_type_ = "PER:NA" ∨ t.ent_type_ = "PER:AMB" then ((⟨0, 0, 1⟩ : GOcc), true)
        else ((⟨0, 0, 0⟩ : GOcc), false)
      else ((⟨0, 0, 0⟩ : GOcc), true)

/-- The coordination-chain walk of descr_pars.py lines 51-82
(`while new_children: ... for child in tk.children: ...`), with fuel. -/
def walkConj (doc : Doc) : Nat → Nat → GOcc
  | 0, _ => ⟨0, 0, 0⟩
  | fuel + 1, i =>
    match findConjChild doc i with
    | none => ⟨0, 0, 0⟩
    | some j =>
        if cjCond doc j then
          let r := conjOcc (tokAt doc j)
          if r.2 then r.1 + walkConj doc fuel j else r.1
        else
          walkConj doc fuel j

/-- `descr_pars.obtain_gender_occurrences` (descr_pars.py lines 15-84):
zero vector for an absent target (`if not t:` line 30), otherwise the
starting token's contribution plus the coordination-chain walk. -/
def obtain_gender_occurrences (doc : Doc) (t : Option Nat) : GOcc :=
  match t with
  | none => ⟨0, 0, 0⟩
  | some i => primaryOcc (tokAt doc i) + walkConj doc doc.length i

/-! ## Statistics accumulator (helper.py lines 46-59, restricted to the
components the descriptor pipeline touches: the `DESCR` and `GLEAN`
sub-records; the other sub-records are mutated only by code outside the
claims). Python dicts with `.get(k, 0)` are total functions `String → Int`;
the fixed-key counter dicts (`num_matches_descr`, `glean_not_found`, keys
`DESCR:F`, `DESCR:M`, `DESCR:NA` in insertion order) are three named
fields. -/

/-- `Statistics.DESCR` (helper.py lines 46-52). -/
structure DESCR where
  female_descriptors : String → Int
  male_descriptors : String → Int
  ud_descriptors : String → Int
  num_matches_f : Int
  num_matches_m : Int
  num_matches_na : Int
  num_neg : Int

/-- `Statistics.GLEAN` (helper.py lines 54-59); the float 4-vectors are
modelled over `ℚ`. -/
structure GLEAN where
  female_glean : List ℚ
  male_glean : List ℚ
  ud_glean : List ℚ
  nf_f : Int
  nf_m : Int
  nf_na : Int
deriving DecidableEq

/-- The statistics accumulator, restricted to the descriptor components. -/
structure Statistics where
  descr : DESCR
  glean : GLEAN

/-- `GLEAN_INIT` / a fresh `Statistics.GLEAN()` (helper.py lines 16, 54-59). -/
def gleanInit : GLEAN := ⟨[0, 0, 0, 0], [0, 0, 0, 0], [0, 0, 0, 0], 0, 0, 0⟩

/-- A fresh `Statistics.DESCR({}, {}, {})` (helper.py lines 46-52). -/
def descrInit : DESCR := ⟨fun _ => 0, fun _ => 0, fun _ => 0, 0, 0, 0, 0⟩

/-- The all-zero statistics accumulator. -/
def zeroStats : Statistics := ⟨descrInit, gleanInit⟩

/-- Sentiment lexicon `glean_norm_values` (glean.py lines 9-22), loaded
from an external CSV at startup; modelled as a parameter mapping a lemma
to its optional norm 4-vector. -/
abbrev Lexicon := String → Option (List ℚ)

/-- Effect of `add_descriptor` on the `DESCR` sub-record
(descr_pars.py lines 193-202): the three lemma→count dicts and the three
match counters each gain the corresponding leg of `factors`. -/
def descrAdd (descriptor : String) (factors : GOcc) (d : DESCR) : DESCR :=
  { d with
    female_descriptors :=
      Function.update d.female_descriptors descriptor (d.female_descriptors descriptor + factors.f)
    male_descriptors :=
      Function.update d.male_descriptors descriptor (d.male_descriptors descriptor + factors.m)
    ud_descriptors :=
      Function.update d.ud_descriptors descriptor (d.ud_descriptors descriptor + factors.ud)
    num_matches_f := d.num_matches_f + factors.f
    num_matches_m := d.num_matches_m + factors.m
    num_matches_na := d.num_matches_na + factors.ud }

/-- Effect of `add_descriptor` on the `GLEAN` sub-record
(descr_pars.py lines 204-213): on a lexicon hit the three sums gain the
norm vector scaled by the respective leg (`zip` truncates as in Python);
on a `KeyError` — raised before any of the three sums is reassigned — the
three not-found counters gain the legs instead. -/
def gleanAdd (lex : Lexicon) (descriptor : String) (factors : GOcc) (g : GLEAN) : GLEAN :=
  match lex descriptor with
  | some nv =>
      { g with
        female_glean := (g.female_glean.zip nv).map (fun p => p.1 + (factors.f : ℚ) * p.2)
        male_glean := (g.male_glean.zip nv).map (fun p => p.1 + (factors.m : ℚ) * p.2)
        ud_glean := (g.ud_glean.zip nv).map (fun p => p.1 + (factors.ud : ℚ) * p.2) }
  | none =>
      { g with
        nf_f := g.nf_f + factors.f
        nf_m := g.nf_m + factors.m
        nf_na := g.nf_na + factors.ud }

/-- `descr_pars.add_descriptor` (descr_pars.py lines 182-213): the `DESCR`
fields are updated from the `DESCR` fields only and the `GLEAN` fields from
the `GLEAN` fields only, so the update splits componentwise. -/
def add_descriptor (lex : Lexicon) (descriptor : String) (factors : GOcc)
    (s : Statistics) : Statistics :=
  ⟨descrAdd descriptor factors s.descr, gleanAdd lex descriptor factors s.glean⟩

/-! ## `parse_descriptors` (descr_pars.py lines 87-179)

The per-token body is split in three stages mirroring the source:
pattern classification (lines 97-140), the all-zero-vector check
(lines 142-143), and the nested-descriptor expansion plus the
`add_descriptor` calls (lines 145-179). Which descriptors are added
depends only on the document, never on the accumulator, so the
per-token effect is an accumulator-independent `TokenAction` applied
to the accumulator. -/

/-- Outcome of the pattern dispatch for one token (descr_pars.py
lines 97-140): the clause-negation branch, a recognized descriptor
pattern with its computed gender vector, descriptor token, optional
captured adverb and separable-particle string, or no match. -/
inductive Pattern where
  | negation
  | descr (factors : GOcc) (dIdx : Nat) (adv : Option Nat) (svp : String)
  | nomatch
deriving Repr, DecidableEq

/-- The `svp`/`adv` child scan of the finite-verb pattern
(descr_pars.py lines 130-136): one pass over the verb's children; an
`svp` child overwrites the particle string (last one wins), a `mo`/`oc`
adverb or auxiliary child is captured only while no adverb is held yet. -/
def svpAdvScan (doc : Doc) (hIdx : Nat) (adv0 : Option Nat) : String × Option Nat :=
  (childrenIdx doc hIdx).foldl
    (fun p c =>
      let ct := tokAt doc c
      if ct.dep_ = "svp" ∧ ct.head = hIdx then
        ((strLower ct.lemma_ ++ SVP_DELIMITER), p.2)
      else if p.2 = none ∧ (ct.dep_ = "mo" ∨ ct.dep_ = "oc") ∧
          (ct.pos_ = "ADV" ∨ ct.pos_ = "AUX") then
        (p.1, some c)
      else p)
    ("", adv0)

/-- Pattern dispatch for token `i` (descr_pars.py lines 97-140), in the
source's priority order: negation (lines 101-103), attributive adjective
(lines 106-108), verb/adverb under an auxiliary (lines 111-122), finite
verb with nominative subject (lines 125-137), otherwise no match. -/
def classifyToken (doc : Doc) (i : Nat) : Pattern :=
  let token := tokAt doc i
  let hIdx := token.head
  let head := tokAt doc hIdx
  if token.dep_ = "ng" ∧ (head.pos_ = "VERB" ∨ head.pos_ = "AUX" ∨ head.pos_ = "ADJ") then
    .negation
  else if token.dep_ = "nk" ∧ token.pos_ = "ADJ" ∧ head.pos_ ∈ TARGET_POS then
    .descr (obtain_gender_occurrences doc (some hIdx)) i none ""
  else if (token.dep_ = "pd" ∨ token.dep_ = "oc") ∧ head.pos_ = "AUX" ∧
      (token.pos_ = "ADV" ∨ token.pos_ = "VERB") then
    let n : Option Nat :=
      if (head.dep_ = "rc" ∨ head.dep_ = "oc") ∧ (tokAt doc head.head).pos_ ∈ TARGET_POS ∧
          is_nom (tokAt doc head.head) then
        some head.head
      else
        (childrenIdx doc hIdx).find? (fun c =>
          TARGET_POS.contains (tokAt doc c).pos_ && is_nom (tokAt doc c) &&
            ((tokAt doc c).dep_ == "sb" || (tokAt doc c).dep_ == "oc"))
    .descr (obtain_gender_occurrences doc n) i none ""
  else if token.dep_ = "sb" ∧ head.pos_ = "VERB" ∧ token.pos_ ∈ TARGET_POS ∧ is_nom token then
    let adv0 : Option Nat :=
      if head.dep_ = "oc" ∧ ((tokAt doc head.head).pos_ = "ADV" ∨ (tokAt doc head.head).pos_ = "AUX") then
        some head.head
      else none
    let sa := svpAdvScan doc hIdx adv0
    .descr (obtain_gender_occurrences doc (some i)) hIdx sa.2 sa.1
  else
    .nomatch

/-- Condition of descr_pars.py line 155: a conjunct descriptor
(`cj`, POS `ADJ`/`ADV`/`VERB`). -/
def njCond (doc : Doc) (j : Nat) : Bool :=
  (tokAt doc j).dep_ == "cj" &&
    ((tokAt doc j).pos_ == "ADJ" || (tokAt doc j).pos_ == "ADV" || (tokAt doc j).pos_ == "VERB")

/-- The child scan of a VERB conjunct (descr_pars.py lines 156-163):
collects the lemma of the last `svp` child (if any) and, in scan order,
the lowercased lemmas of `mo`/`oc` children with POS `ADV`/`AUX`. -/
def nestedVerbScan (doc : Doc) (j : Nat) : Option String × List String :=
  (childrenIdx doc j).foldl
    (fun p c =>
      let ct := tokAt doc c
      if ct.dep_ = "svp" ∧ ct.head = j then
        (some (strLower ct.lemma_ ++ SVP_DELIMITER), p.2)
      else if (ct.dep_ = "mo" ∨ ct.dep_ = "oc") ∧ (ct.pos_ = "ADV" ∨ ct.pos_ = "AUX") then
        (p.1, p.2 ++ [strLower ct.lemma_])
      else p)
    (none, [])

/-- The nested-descriptor coordination walk (descr_pars.py lines 150-172),
with fuel: follows `cj` conjuncts with POS `ADJ`/`ADV`/`VERB`, appending
for each one (for a VERB conjunct) its captured adverb lemmas and then its
possibly particle-prefixed lowercased lemma (`if svp_c:` is Python
truthiness, so an empty particle string is dropped), and skips through
`cd`/`CCONJ` links. -/
def nestedWalk (doc : Doc) : Nat → Nat → List String → List String
  | 0, _, acc => acc
  | fuel + 1, i, acc =>
    match (childrenIdx doc i).find? (fun j => njCond doc j || cdCond doc j) with
    | none => acc
    | some j =>
        if njCond doc j then
          let child := tokAt doc j
          let sc := if child.pos_ = "VERB" then nestedVerbScan doc j else (none, [])
          let entry :=
            match truthyOpt sc.1 with
            | some p => p ++ strLower child.lemma_
            | none => strLower child.lemma_
          nestedWalk doc fuel j (acc ++ sc.2 ++ [entry])
        else
          nestedWalk doc fuel j acc

/-- The per-token accumulator effect, computed from the document alone:
either the negation-counter increment or the ordered list of
`add_descriptor` calls (lemma, gender vector). -/
inductive TokenAction where
  | neg
  | adds (l : List (String × GOcc))
deriving Repr, DecidableEq

/-- Stage after pattern classification (descr_pars.py lines 142-179):
discard the token on an all-zero vector (lines 142-143); otherwise run the
nested-descriptor expansion — the `for token in (descriptor, adv)` loop
resets `nested_descr` at each iteration (line 149), so with a captured
adverb present only the adverb's walk survives, and the adverb's own lemma
is appended (line 173) — and emit the primary descriptor
(`svp + descriptor.lemma_.lower()`, line 176) followed by the nested ones
(lines 177-179). -/
def mkAdds (doc : Doc) (factors : GOcc) (dIdx : Nat) (adv : Option Nat)
    (svp : String) : TokenAction :=
  if factors.f = 0 ∧ factors.m = 0 ∧ factors.ud = 0 then .adds []
  else
    let nested :=
      match adv with
      | some a => nestedWalk doc doc.length a [] ++ [strLower (tokAt doc a).lemma_]
      | none => nestedWalk doc doc.length dIdx []
    let primary := svp ++ strLower (tokAt doc dIdx).lemma_
    .adds ((primary, factors) :: nested.map (fun d => (d, factors)))

/-- The full per-token action (classification plus emission stage);
an unmatched token contributes no action (`continue`, line 140). -/
def tokenAction (doc : Doc) (i : Nat) : TokenAction :=
  match classifyToken doc i with
  | .negation => .neg
  | .nomatch => .adds []
  | .descr factors dIdx adv svp => mkAdds doc factors dIdx adv svp

/-- Applying a per-token action to the accumulator: the negation branch
increments `num_neg` (descr_pars.py line 102); the descriptor branch
performs the `add_descriptor` calls in order (lines 177-179). -/
def applyAction (lex : Lexicon) (a : TokenAction) (s : Statistics) : Statistics :=
  match a with
  | .neg => ⟨{ s.descr with num_neg := s.descr.num_neg + 1 }, s.glean⟩
  | .adds l => l.foldl (fun s p => add_descriptor lex p.1 p.2 s) s

/-- Processing of one token of the `for token in doc` loop. -/
def processToken (lex : Lexicon) (doc : Doc) (i : Nat) (s : Statistics) : Statistics :=
  applyAction lex (tokenAction doc i) s

/-- `descr_pars.parse_descriptors` (descr_pars.py lines 87-179):
the `for token in doc` loop over all tokens in document order. -/
def parse_descriptors (lex : Lexicon) (doc : Doc) (s : Statistics) : Statistics :=
  (List.range doc.length).foldl (fun s i => processToken lex doc i s) s

/-! ## The per-article accumulator loop of `main` (main.py lines 256-281)

Per article, `main` builds a `Statistics` whose dict components are the
very dict objects of the previous cumulative accumulator
(main.py lines 263-265) while the `DESCR` counter fields take their
dataclass defaults (zero) and the `GLEAN` sub-record is a fresh
`Statistics.GLEAN()` (main.py line 266), then runs `analyze`, which feeds
every paragraph's annotated `Doc` through `parse_descriptors`
(main.py lines 220-230; `fa_per`, `fa_prn` and `byd_mw` touch only
components outside this model). -/

/-- The accumulator handed to an article by main.py lines 263-267,
restricted to the modelled components: descriptor dicts carried over,
counters and GLEAN freshly zeroed. -/
def carryOver (prev : Statistics) : Statistics :=
  ⟨{ descrInit with
      female_descriptors := prev.descr.female_descriptors
      male_descriptors := prev.descr.male_descriptors
      ud_descriptors := prev.descr.ud_descriptors },
    gleanInit⟩

/-- One iteration of the article loop (main.py lines 258-281): carry over
the dicts, reset the counters and sentiment sums, then parse every
paragraph of the article. -/
def mainStep (lex : Lexicon) (prev : Statistics) (article : List Doc) : Statistics :=
  article.foldl (fun s doc => parse_descriptors lex doc s) (carryOver prev)

/-! ## The Gender Tag Resolver (fa_prn.py lines 45-64) -/

/-- Per-token body of the `gender_prn` pipe (fa_prn.py lines 56-62):
non-NOUN/PROPN tokens are skipped; a lemma in the male person-noun list
gets `PRN:M`, else one in the female list gets `PRN:F`, else the token is
left as it is. -/
def gender_prn_token (prn_male prn_female : List String) (t : Token) : Token :=
  if t.pos_ ≠ "NOUN" ∧ t.pos_ ≠ "PROPN" then t
  else if t.lemma_ ∈ prn_male then { t with gender := some "PRN:M" }
  else if t.lemma_ ∈ prn_female then { t with gender := some "PRN:F" }
  else t

/-- `fa_prn.gender_prn` (fa_prn.py lines 45-64): the token loop over the
document; no other part of the document is touched. -/
def gender_prn (prn_male prn_female : List String) (doc : Doc) : Doc :=
  doc.map (gender_prn_token prn_male prn_female)

/-! ## Concrete documents used as test inputs for the claims -/

/-- A coordination chain `frau –cj→ gast –cj→ mann`: head (index 0) is
gender-tagged `PRN:F`, the middle conjunct carries no gender tag and no
entity label, the last conjunct is gender-tagged `PRN:M`; all three are
nominative nouns. -/
def chainDoc : Doc :=
  [⟨"frau", "NOUN", "rt", 0, ["Nom"], "", some "PRN:F"⟩,
   ⟨"gast", "NOUN", "cj", 0, ["Nom"], "", none⟩,
   ⟨"mann", "NOUN", "cj", 1, ["Nom"], "", some "PRN:M"⟩]

/-- A coordination chain of two female-tagged nominative nouns. -/
def pairDoc : Doc :=
  [⟨"frau", "NOUN", "rt", 0, ["Nom"], "", some "PRN:F"⟩,
   ⟨"gast", "NOUN", "cj", 0, ["Nom"], "", some "PRN:F"⟩]

/-- Attributive-adjective sentence: a female-tagged noun modified by the
adjective `gut` (dependency `nk`). -/
def adjDoc : Doc :=
  [⟨"frau", "NOUN", "rt", 0, ["Nom"], "", some "PRN:F"⟩,
   ⟨"gut", "ADJ", "nk", 0, [], "", none⟩]

/-- Attributive-adjective sentence whose noun target carries no gender
signal at all: the computed vector is all-zero. -/
def adjDocZero : Doc :=
  [⟨"tisch", "NOUN", "rt", 0, ["Nom"], "", none⟩,
   ⟨"gut", "ADJ", "nk", 0, [], "", none⟩]

/-- A verb with a clause-negation child (dependency `ng`). -/
def negDoc : Doc :=
  [⟨"gehen", "VERB", "rt", 0, [], "", none⟩,
   ⟨"nicht", "PTKNEG", "ng", 0, [], "", none⟩]

/-- Finite verb with nominative female-tagged subject and a
separable-verb-particle child: verb lemma `vl`, particle lemma `pl`. -/
def svpDoc (vl pl : String) : Doc :=
  [⟨vl, "VERB", "rt", 0, [], "", none⟩,
   ⟨"frau", "NOUN", "sb", 0, ["Nom"], "", some "PRN:F"⟩,
   ⟨pl, "PTKVZ", "svp", 0, [], "", none⟩]

/-- A lexicon holding only the entry `gut ↦ [1, 1, 1, 1]`. -/
def lexGut : Lexicon := fun d => if d = "gut" then some [1, 1, 1, 1] else none

/-- The empty lexicon. -/
def lexEmpty : Lexicon := fun _ => none

/-- A lexicon holding only the entry `schön ↦ [1, 2, 3, 4]`. -/
def lexSchoen : Lexicon := fun d => if d = "schön" then some [1, 2, 3, 4] else none

/-- A person noun, for exercising the gender tag resolver. -/
def tokArzt : Token := ⟨"arzt", "NOUN", "sb", 0, [], "", none⟩

/-- A verb token, which the gender tag resolver must skip. -/
def tokVerb : Token := ⟨"gehen", "VERB", "rt", 0, [], "", none⟩

/-! ## Helper lemmas -/

theorem GOcc.zero_add (x : GOcc) : (⟨0, 0, 0⟩ : GOcc) + x = x := by
  cases x; simp [GOcc.add_def]

theorem primaryOcc_bounds (t : Token) :
    0 ≤ (primaryOcc t).f ∧ 0 ≤ (primaryOcc t).m ∧ 0 ≤ (primaryOcc t).ud ∧
    (primaryOcc t).f + (primaryOcc t).m + (primaryOcc t).ud ≤ 1 := by
  unfold primaryOcc
  rcases h : truthyOpt t.gender with - | g <;> simp only [h] <;> split_ifs <;> norm_num

theorem conjOcc_cases (t : Token) :
    (conjOcc t).1 = ⟨1, 0, 0⟩ ∨ (conjOcc t).1 = ⟨0, 1, 0⟩ ∨ (conjOcc t).1 = ⟨0, 0, 1⟩ ∨
      (conjOcc t).1 = ⟨0, 0, 0⟩ := by
  unfold conjOcc
  rcases h : truthyOpt t.gender with - | g <;> simp only [h] <;> split_ifs <;> simp

theorem walkConj_nonneg (doc : Doc) : ∀ (fuel i : Nat),
    0 ≤ (walkConj doc fuel i).f ∧ 0 ≤ (walkConj doc fuel i).m ∧
      0 ≤ (walkConj doc fuel i).ud := by
  intro fuel
  induction fuel with
  | zero => intro i; simp [walkConj]
  | succ n ih =>
    intro i
    rw [walkConj]
    cases h : findConjChild doc i with
    | none => simp
    | some j =>
      simp only
      split_ifs with hcj hb
      · obtain ⟨a1, a2, a3⟩ := ih j
        rcases conjOcc_cases (tokAt doc j) with h1 | h1 | h1 | h1 <;>
          simp [h1, GOcc.add_def] <;> omega
      · rcases conjOcc_cases (tokAt doc j) with h1 | h1 | h1 | h1 <;> simp [h1]
      · exact ih j

/-! ## Claims -/

/-- C10: `obtain_gender_occurrences` called with no target (the `None`
case that the predicative pattern produces when no nominative subject is
found, descr_pars.py lines 30-31, 111-122) returns the all-zero vector,
independently of the document, i.e. without reading any token attribute. -/
theorem claim_C10 (doc doc2 : Doc) :
    obtain_gender_occurrences doc none = ⟨0, 0, 0⟩ ∧
    obtain_gender_occurrences doc none = obtain_gender_occurrences doc2 none :=
  ⟨rfl, rfl⟩

/-- C9: every gender-occurrence vector returned by
`obtain_gender_occurrences` has non-negative components; the result splits
into the starting token's own contribution — which increments at most one
of the three legs — plus the coordination-chain walk's non-negative
contribution; and components can exceed 1 (on `pairDoc`, two coordinated
female-tagged nouns, the female leg is 2). -/
theorem claim_C9 (doc : Doc) (i fuel : Nat) :
    (0 ≤ (obtain_gender_occurrences doc (some i)).f ∧
     0 ≤ (obtain_gender_occurrences doc (some i)).m ∧
     0 ≤ (obtain_gender_occurrences doc (some i)).ud) ∧
    obtain_gender_occurrences doc (some i)
      = primaryOcc (tokAt doc i) + walkConj doc doc.length i ∧
    (0 ≤ (primaryOcc (tokAt doc i)).f ∧ 0 ≤ (primaryOcc (tokAt doc i)).m ∧
     0 ≤ (primaryOcc (tokAt doc i)).ud ∧
     (primaryOcc (tokAt doc i)).f + (primaryOcc (tokAt doc i)).m +
       (primaryOcc (tokAt doc i)).ud ≤ 1) ∧
    (0 ≤ (walkConj doc fuel i).f ∧ 0 ≤ (walkConj doc fuel i).m ∧
     0 ≤ (walkConj doc fuel i).ud) ∧
    (obtain_gender_occurrences pairDoc (some 0)).f = 2 := by
  refine ⟨?_, rfl, primaryOcc_bounds _, walkConj_nonneg doc fuel i, by decide⟩
  obtain ⟨p1, p2, p3, -⟩ := primaryOcc_bounds (tokAt doc i)
  obtain ⟨w1, w2, w3⟩ := walkConj_nonneg doc doc.length i
  simp only [obtain_gender_occurrences, GOcc.add_def]
  exact ⟨by omega, by omega, by omega⟩

/-- C1, counterexample: on `chainDoc` (female-tagged noun –cj→ untagged,
unlabelled noun –cj→ male-tagged noun, all nominative) the claim predicts
the walk stops at the untagged conjunct, giving the vector (1, 0, 0); the
code continues past it and also counts the male-tagged third conjunct,
giving (1, 1, 0). -/
theorem claim_C1_counterexample :
    obtain_gender_occurrences chainDoc (some 0) = ⟨1, 1, 0⟩ ∧
    obtain_gender_occurrences chainDoc (some 0) ≠ ⟨1, 0, 0⟩ := by decide

/-- C1, amended: when a followed conjunct (dependency `cj`, POS
NOUN/PROPN, nominative) carries no gender information — no (truthy) gender
tag and no `PER:`-prefixed entity label — the walk does NOT terminate
there: no leg is incremented for that conjunct and the walk continues from
it, so a later gender-tagged conjunct in the chain IS added. (The walk is
cut early only on a truthy gender tag other than `PRN:F`/`PRN:M` or a
`PER:`-prefixed entity label outside the four recognized values,
descr_pars.py lines 59-77.) -/
theorem claim_C1 (doc : Doc) (i j fuel : Nat)
    (hfind : findConjChild doc i = some j)
    (hcj : cjCond doc j = true)
    (hg : truthyOpt (tokAt doc j).gender = none)
    (hent : (tokAt doc j).ent_type_.startsWith "PER:" = false) :
    walkConj doc (fuel + 1) i = walkConj doc fuel j := by
  have hc : conjOcc (tokAt doc j) = (⟨0, 0, 0⟩, true) := by
    unfold conjOcc; rw [hg]; simp [hent]
  rw [walkConj]
  simp only [hfind, hcj, if_true, hc]
  exact GOcc.zero_add _

/-- C1, witness: the amended theorem applied to `chainDoc` at its
ungendered middle conjunct. -/
theorem claim_C1_witness :
    findConjChild chainDoc 0 = some 1 ∧ cjCond chainDoc 1 = true ∧
    truthyOpt (tokAt chainDoc 1).gender = none ∧
    (tokAt chainDoc 1).ent_type_.startsWith "PER:" = false ∧
    walkConj chainDoc 2 0 = walkConj chainDoc 1 1 :=
  ⟨by decide, by decide, by decide, by decide,
   claim_C1 chainDoc 0 1 1 (by decide) (by decide) (by decide) (by decide)⟩

/-- C3: on a lexicon miss, `add_descriptor` increments the three
not-found counters by the female, male and undetermined legs respectively
and leaves all three sentiment-sum accumulators unchanged
(descr_pars.py lines 204-213). -/
theorem claim_C3 (lex : Lexicon) (d : String) (v : GOcc) (s : Statistics)
    (h : lex d = none) :
    (add_descriptor lex d v s).glean.nf_f = s.glean.nf_f + v.f ∧
    (add_descriptor lex d v s).glean.nf_m = s.glean.nf_m + v.m ∧
    (add_descriptor lex d v s).glean.nf_na = s.glean.nf_na + v.ud ∧
    (add_descriptor lex d v s).glean.female_glean = s.glean.female_glean ∧
    (add_descriptor lex d v s).glean.male_glean = s.glean.male_glean ∧
    (add_descriptor lex d v s).glean.ud_glean = s.glean.ud_glean := by
  simp [add_descriptor, gleanAdd, h]

/-- C3, witness: `add_descriptor("zzznotfound", (1,1,0))` on the zero
accumulator increments the female and male not-found counters by 1 each
and leaves the sentiment sums untouched. -/
theorem claim_C3_witness :
    (add_descriptor lexEmpty "zzznotfound" ⟨1, 1, 0⟩ zeroStats).glean.nf_f = 1 ∧
    (add_descriptor lexEmpty "zzznotfound" ⟨1, 1, 0⟩ zeroStats).glean.nf_m = 1 ∧
    (add_descriptor lexEmpty "zzznotfound" ⟨1, 1, 0⟩ zeroStats).glean.nf_na = 0 ∧
    (add_descriptor lexEmpty "zzznotfound" ⟨1, 1, 0⟩ zeroStats).glean.female_glean
      = [0, 0, 0, 0] ∧
    (add_descriptor lexEmpty "zzznotfound" ⟨1, 1, 0⟩ zeroStats).glean.male_glean
      = [0, 0, 0, 0] ∧
    (add_descriptor lexEmpty "zzznotfound" ⟨1, 1, 0⟩ zeroStats).glean.ud_glean
      = [0, 0, 0, 0] := by
  have h := claim_C3 lexEmpty "zzznotfound" ⟨1, 1, 0⟩ zeroStats rfl
  simpa [zeroStats, gleanInit] using h

/-- C4: on a lexicon hit `[ga, gv, gi, gc]`, `add_descriptor` adds the
lexicon 4-vector scaled by each leg of the gender vector componentwise to
the corresponding per-gender sentiment sum (descr_pars.py lines 204-207). -/
theorem claim_C4 (lex : Lexicon) (d : String) (vec : GOcc) (s : Statistics)
    (ga gv gi gc w1 w2 w3 w4 x1 x2 x3 x4 y1 y2 y3 y4 : ℚ)
    (hlex : lex d = some [ga, gv, gi, gc])
    (hf : s.glean.female_glean = [w1, w2, w3, w4])
    (hm : s.glean.male_glean = [x1, x2, x3, x4])
    (hud : s.glean.ud_glean = [y1, y2, y3, y4]) :
    (add_descriptor lex d vec s).glean.female_glean
      = [w1 + vec.f * ga, w2 + vec.f * gv, w3 + vec.f * gi, w4 + vec.f * gc] ∧
    (add_descriptor lex d vec s).glean.male_glean
      = [x1 + vec.m * ga, x2 + vec.m * gv, x3 + vec.m * gi, x4 + vec.m * gc] ∧
    (add_descriptor lex d vec s).glean.ud_glean
      = [y1 + vec.ud * ga, y2 + vec.ud * gv, y3 + vec.ud * gi, y4 + vec.ud * gc] := by
  simp [add_descriptor, gleanAdd, hlex, hf, hm, hud]

/-- C4, witness: `add_descriptor("schön", (2,0,1))` with lexicon entry
`[1, 2, 3, 4]` adds twice the entry to the female sum, once to the
undetermined sum, and nothing to the male sum. -/
theorem claim_C4_witness :
    (add_descriptor lexSchoen "schön" ⟨2, 0, 1⟩ zeroStats).glean.female_glean
      = [2, 4, 6, 8] ∧
    (add_descriptor lexSchoen "schön" ⟨2, 0, 1⟩ zeroStats).glean.male_glean
      = [0, 0, 0, 0] ∧
    (add_descriptor lexSchoen "schön" ⟨2, 0, 1⟩ zeroStats).glean.ud_glean
      = [1, 2, 3, 4] := by
  have h := claim_C4 lexSchoen "schön" ⟨2, 0, 1⟩ zeroStats
    1 2 3 4 0 0 0 0 0 0 0 0 0 0 0 0 (by decide) rfl rfl rfl
  norm_num at h
  exact h

/-- C5: a token whose classified pattern computed the all-zero
gender-occurrence vector is discarded (descr_pars.py lines 142-143):
no descriptor (primary or nested) is added and the token leaves the
statistics accumulator unchanged. -/
theorem claim_C5 (lex : Lexicon) (doc : Doc) (i : Nat) (s : Statistics)
    (dIdx : Nat) (adv : Option Nat) (svp : String)
    (h : classifyToken doc i = .descr ⟨0, 0, 0⟩ dIdx adv svp) :
    processToken lex doc i s = s := by
  unfold processToken tokenAction
  simp [h, mkAdds, applyAction]

/-- C5, witness: on `adjDocZero` the adjective matches the attributive
pattern but its noun target yields the all-zero vector, and the
accumulator is unchanged. -/
theorem claim_C5_witness :
    classifyToken adjDocZero 1 = .descr ⟨0, 0, 0⟩ 1 none "" ∧
    processToken lexEmpty adjDocZero 1 zeroStats = zeroStats :=
  ⟨by decide, claim_C5 lexEmpty adjDocZero 1 zeroStats 1 none "" (by decide)⟩

/-- C6: a clause-negation token (dependency `ng` with verbal,
auxiliary or adjectival head) increments the negation counter by exactly
1 and changes nothing else; no descriptor record is produced
(descr_pars.py lines 100-103). -/
theorem claim_C6 (lex : Lexicon) (doc : Doc) (i : Nat) (s : Statistics)
    (h1 : (tokAt doc i).dep_ = "ng")
    (h2 : (tokAt doc (tokAt doc i).head).pos_ = "VERB" ∨
          (tokAt doc (tokAt doc i).head).pos_ = "AUX" ∨
          (tokAt doc (tokAt doc i).head).pos_ = "ADJ") :
    processToken lex doc i s
      = ⟨{ s.descr with num_neg := s.descr.num_neg + 1 }, s.glean⟩ := by
  have hcl : classifyToken doc i = .negation := by
    unfold classifyToken
    simp only
    rw [if_pos ⟨h1, h2⟩]
  unfold processToken tokenAction
  simp [hcl, applyAction]

/-- C6, witness: the negation token of `negDoc` increments the negation
counter of the zero accumulator and nothing else. -/
theorem claim_C6_witness :
    processToken lexEmpty negDoc 1 zeroStats
      = ⟨{ zeroStats.descr with num_neg := zeroStats.descr.num_neg + 1 },
         zeroStats.glean⟩ :=
  claim_C6 lexEmpty negDoc 1 zeroStats (by decide) (by decide)

/-- C8: the gender tag resolver tags a NOUN/PROPN token `PRN:M` when its
lemma is in the male person-noun list (so a lemma in both lists is tagged
male), else `PRN:F` when in the female list, else leaves the token
unchanged; a non-NOUN/PROPN token is never touched; only the gender field
is ever written; and the document pipe is exactly the per-token map
(fa_prn.py lines 45-64). -/
theorem claim_C8 (prn_m prn_f : List String) (t : Token) (doc : Doc) :
    ((t.pos_ = "NOUN" ∨ t.pos_ = "PROPN") → t.lemma_ ∈ prn_m →
        gender_prn_token prn_m prn_f t = { t with gender := some "PRN:M" }) ∧
    ((t.pos_ = "NOUN" ∨ t.pos_ = "PROPN") → t.lemma_ ∉ prn_m → t.lemma_ ∈ prn_f →
        gender_prn_token prn_m prn_f t = { t with gender := some "PRN:F" }) ∧
    ((t.pos_ = "NOUN" ∨ t.pos_ = "PROPN") → t.lemma_ ∉ prn_m → t.lemma_ ∉ prn_f →
        gender_prn_token prn_m prn_f t = t) ∧
    (¬(t.pos_ = "NOUN" ∨ t.pos_ = "PROPN") → gender_prn_token prn_m prn_f t = t) ∧
    ((gender_prn_token prn_m prn_f t).lemma_ = t.lemma_ ∧
     (gender_prn_token prn_m prn_f t).pos_ = t.pos_ ∧
     (gender_prn_token prn_m prn_f t).dep_ = t.dep_ ∧
     (gender_prn_token prn_m prn_f t).head = t.head ∧
     (gender_prn_token prn_m prn_f t).morphCase = t.morphCase ∧
     (gender_prn_token prn_m prn_f t).ent_type_ = t.ent_type_) ∧
    gender_prn prn_m prn_f doc = doc.map (gender_prn_token prn_m prn_f) := by
  refine ⟨?_, ?_, ?_, ?_, ?_, rfl⟩
  · intro hpos hm
    have hno : ¬(t.pos_ ≠ "NOUN" ∧ t.pos_ ≠ "PROPN") := by
      rcases hpos with h | h <;> simp [h]
    unfold gender_prn_token
    rw [if_neg hno, if_pos hm]
  · intro hpos hm hf
    have hno : ¬(t.pos_ ≠ "NOUN" ∧ t.pos_ ≠ "PROPN") := by
      rcases hpos with h | h <;> simp [h]
    unfold gender_prn_token
    rw [if_neg hno, if_neg hm, if_pos hf]
  · intro hpos hm hf
    have hno : ¬(t.pos_ ≠ "NOUN" ∧ t.pos_ ≠ "PROPN") := by
      rcases hpos with h | h <;> simp [h]
    unfold gender_prn_token
    rw [if_neg hno, if_neg hm, if_neg hf]
  · intro hpos
    have hyes : t.pos_ ≠ "NOUN" ∧ t.pos_ ≠ "PROPN" := by
      constructor <;> intro h <;> exact hpos (by simp [h])
    unfold gender_prn_token
    rw [if_pos hyes]
  · unfold gender_prn_token
    split_ifs <;> simp

/-- C8, witness: the resolver applied to a noun whose lemma is in both
lists (tagged male), in the female list only, in neither list, and to a
verb token (untouched). -/
theorem claim_C8_witness :
    gender_prn_token ["arzt"] ["arzt"] tokArzt = { tokArzt with gender := some "PRN:M" } ∧
    gender_prn_token [] ["arzt"] tokArzt = { tokArzt with gender := some "PRN:F" } ∧
    gender_prn_token [] [] tokArzt = tokArzt ∧
    gender_prn_token ["gehen"] ["gehen"] tokVerb = tokVerb :=
  ⟨(claim_C8 ["arzt"] ["arzt"] tokArzt []).1 (Or.inl rfl) (by decide),
   (claim_C8 [] ["arzt"] tokArzt []).2.1 (Or.inl rfl) (by decide) (by decide),
   (claim_C8 [] [] tokArzt []).2.2.1 (Or.inl rfl) (by decide) (by decide),
   (claim_C8 ["gehen"] ["gehen"] tokVerb []).2.2.2.1 (by decide)⟩

/-! ## Additivity machinery for the article loop (claim C2) -/

/-- Net contribution of a list of `add_descriptor` calls to a descriptor
dict at key `k`, for one leg of the gender vector. -/
def addsDelta (leg : GOcc → Int) (l : List (String × GOcc)) (k : String) : Int :=
  (l.map (fun p => if k = p.1 then leg p.2 else 0)).sum

/-- Net contribution of one token's action to a descriptor dict at `k`. -/
def actionDelta (leg : GOcc → Int) : TokenAction → String → Int
  | .neg => fun _ => 0
  | .adds l => addsDelta leg l

/-- Net contribution of one parsed document to a descriptor dict at `k`. -/
def docDelta (leg : GOcc → Int) (doc : Doc) (k : String) : Int :=
  ((List.range doc.length).map (fun i => actionDelta leg (tokenAction doc i) k)).sum

/-- Net contribution of one article (list of paragraph docs) to a
descriptor dict at `k`. -/
def articleDelta (leg : GOcc → Int) (article : List Doc) (k : String) : Int :=
  (article.map (fun d => docDelta leg d k)).sum

theorem add_descriptor_dicts (lex : Lexicon) (d : String) (v : GOcc) (s : Statistics)
    (k : String) :
    (add_descriptor lex d v s).descr.female_descriptors k
      = s.descr.female_descriptors k + (if k = d then v.f else 0) ∧
    (add_descriptor lex d v s).descr.male_descriptors k
      = s.descr.male_descriptors k + (if k = d then v.m else 0) ∧
    (add_descriptor lex d v s).descr.ud_descriptors k
      = s.descr.ud_descriptors k + (if k = d then v.ud else 0) := by
  refine ⟨?_, ?_, ?_⟩ <;>
    simp [add_descriptor, descrAdd, Function.update_apply] <;>
    split_ifs with h <;> simp [h]

theorem foldAdds_dicts (lex : Lexicon) :
    ∀ (l : List (String × GOcc)) (s : Statistics) (k : String),
    ((l.foldl (fun s p => add_descriptor lex p.1 p.2 s) s).descr.female_descriptors k
      = s.descr.female_descriptors k + addsDelta (fun g => g.f) l k) ∧
    ((l.foldl (fun s p => add_descriptor lex p.1 p.2 s) s).descr.male_descriptors k
      = s.descr.male_descriptors k + addsDelta (fun g => g.m) l k) ∧
    ((l.foldl (fun s p => add_descriptor lex p.1 p.2 s) s).descr.ud_descriptors k
      = s.descr.ud_descriptors k + addsDelta (fun g => g.ud) l k) := by
  intro l
  induction l with
  | nil => intro s k; simp [addsDelta]
  | cons p rest ih =>
    intro s k
    obtain ⟨h1, h2, h3⟩ := ih (add_descriptor lex p.1 p.2 s) k
    obtain ⟨g1, g2, g3⟩ := add_descriptor_dicts lex p.1 p.2 s k
    simp only [List.foldl_cons, h1, h2, h3, g1, g2, g3, addsDelta, List.map_cons,
      List.sum_cons]
    refine ⟨by ring, by ring, by ring⟩

theorem processToken_dicts (lex : Lexicon) (doc : Doc) (i : Nat) (s : Statistics)
    (k : String) :
    ((processToken lex doc i s).descr.female_descriptors k
      = s.descr.female_descriptors k + actionDelta (fun g => g.f) (tokenAction doc i) k) ∧
    ((processToken lex doc i s).descr.male_descriptors k
      = s.descr.male_descriptors k + actionDelta (fun g => g.m) (tokenAction doc i) k) ∧
    ((processToken lex doc i s).descr.ud_descriptors k
      = s.descr.ud_descriptors k + actionDelta (fun g => g.ud) (tokenAction doc i) k) := by
  unfold processToken
  cases h : tokenAction doc i with
  | neg => simp [applyAction, actionDelta]
  | adds l => simpa [applyAction, actionDelta] using foldAdds_dicts lex l s k

theorem foldTokens_dicts (lex : Lexicon) (doc : Doc) :
    ∀ (idxs : List Nat) (s : Statistics) (k : String),
    ((idxs.foldl (fun s i => processToken lex doc i s) s).descr.female_descriptors k
      = s.descr.female_descriptors k
        + (idxs.map (fun i => actionDelta (fun g => g.f) (tokenAction doc i) k)).sum) ∧
    ((idxs.foldl (fun s i => processToken lex doc i s) s).descr.male_descriptors k
      = s.descr.male_descriptors k
        + (idxs.map (fun i => actionDelta (fun g => g.m) (tokenAction doc i) k)).sum) ∧
    ((idxs.foldl (fun s i => processToken lex doc i s) s).descr.ud_descriptors k
      = s.descr.ud_descriptors k
        + (idxs.map (fun i => actionDelta (fun g => g.ud) (tokenAction doc i) k)).sum) := by
  intro idxs
  induction idxs with
  | nil => intro s k; simp
  | cons i rest ih =>
    intro s k
    obtain ⟨h1, h2, h3⟩ := ih (processToken lex doc i s) k
    obtain ⟨g1, g2, g3⟩ := processToken_dicts lex doc i s k
    simp only [List.foldl_cons, h1, h2, h3, g1, g2, g3, List.map_cons, List.sum_cons]
    refine ⟨by ring, by ring, by ring⟩

theorem parse_descriptors_dicts (lex : Lexicon) (doc : Doc) (s : Statistics) (k : String) :
    ((parse_descriptors lex doc s).descr.female_descriptors k
      = s.descr.female_descriptors k + docDelta (fun g => g.f) doc k) ∧
    ((parse_descriptors lex doc s).descr.male_descriptors k
      = s.descr.male_descriptors k + docDelta (fun g => g.m) doc k) ∧
    ((parse_descriptors lex doc s).descr.ud_descriptors k
      = s.descr.ud_descriptors k + docDelta (fun g => g.ud) doc k) :=
  foldTokens_dicts lex doc (List.range doc.length) s k

theorem foldDocs_dicts (lex : Lexicon) :
    ∀ (article : List Doc) (s : Statistics) (k : String),
    ((article.foldl (fun s doc => parse_descriptors lex doc s) s).descr.female_descriptors k
      = s.descr.female_descriptors k + articleDelta (fun g => g.f) article k) ∧
    ((article.foldl (fun s doc => parse_descriptors lex doc s) s).descr.male_descriptors k
      = s.descr.male_descriptors k + articleDelta (fun g => g.m) article k) ∧
    ((article.foldl (fun s doc => parse_descriptors lex doc s) s).descr.ud_descriptors k
      = s.descr.ud_descriptors k + articleDelta (fun g => g.ud) article k) := by
  intro article
  induction article with
  | nil => intro s k; simp [articleDelta]
  | cons d rest ih =>
    intro s k
    obtain ⟨h1, h2, h3⟩ := ih (parse_descriptors lex d s) k
    obtain ⟨g1, g2, g3⟩ := parse_descriptors_dicts lex d s k
    simp only [List.foldl_cons, h1, h2, h3, g1, g2, g3, articleDelta, List.map_cons,
      List.sum_cons]
    refine ⟨by ring, by ring, by ring⟩

/-- Agreement of two accumulators on everything except the three
descriptor dicts: the scalar match counters, the negation counter, and the
whole `GLEAN` sub-record. The descriptor pipeline preserves this relation,
which makes the per-article reset of these components visible. -/
def EqNonDict (s t : Statistics) : Prop :=
  s.descr.num_matches_f = t.descr.num_matches_f ∧
  s.descr.num_matches_m = t.descr.num_matches_m ∧
  s.descr.num_matches_na = t.descr.num_matches_na ∧
  s.descr.num_neg = t.descr.num_neg ∧
  s.glean = t.glean

theorem add_descriptor_nondict (lex : Lexicon) (d : String) (v : GOcc) {s t : Statistics}
    (h : EqNonDict s t) : EqNonDict (add_descriptor lex d v s) (add_descriptor lex d v t) := by
  obtain ⟨h1, h2, h3, h4, h5⟩ := h
  exact ⟨by simp [add_descriptor, descrAdd, h1], by simp [add_descriptor, descrAdd, h2],
    by simp [add_descriptor, descrAdd, h3], by simp [add_descriptor, descrAdd, h4],
    by simp [add_descriptor, h5]⟩

theorem foldAdds_nondict (lex : Lexicon) :
    ∀ (l : List (String × GOcc)) {s t : Statistics}, EqNonDict s t →
    EqNonDict (l.foldl (fun s p => add_descriptor lex p.1 p.2 s) s)
      (l.foldl (fun s p => add_descriptor lex p.1 p.2 s) t) := by
  intro l
  induction l with
  | nil => intro s t h; simpa using h
  | cons p rest ih =>
    intro s t h
    simpa using ih (add_descriptor_nondict lex p.1 p.2 h)

theorem processToken_nondict (lex : Lexicon) (doc : Doc) (i : Nat) {s t : Statistics}
    (h : EqNonDict s t) : EqNonDict (processToken lex doc i s) (processToken lex doc i t) := by
  unfold processToken
  cases tokenAction doc i with
  | neg =>
    obtain ⟨h1, h2, h3, h4, h5⟩ := h
    exact ⟨by simpa [applyAction] using h1, by simpa [applyAction] using h2,
      by simpa [applyAction] using h3, by simpa [applyAction] using h4,
      by simpa [applyAction] using h5⟩
  | adds l => exact foldAdds_nondict lex l h

theorem foldTokens_nondict (lex : Lexicon) (doc : Doc) :
    ∀ (idxs : List Nat) {s t : Statistics}, EqNonDict s t →
    EqNonDict (idxs.foldl (fun s i => processToken lex doc i s) s)
      (idxs.foldl (fun s i => processToken lex doc i s) t) := by
  intro idxs
  induction idxs with
  | nil => intro s t h; simpa using h
  | cons i rest ih =>
    intro s t h
    simpa using ih (processToken_nondict lex doc i h)

theorem foldDocs_nondict (lex : Lexicon) :
    ∀ (article : List Doc) {s t : Statistics}, EqNonDict s t →
    EqNonDict (article.foldl (fun s doc => parse_descriptors lex doc s) s)
      (article.foldl (fun s doc => parse_descriptors lex doc s) t) := by
  intro article
  induction article with
  | nil => intro s t h; simpa using h
  | cons d rest ih =>
    intro s t h
    exact ih (foldTokens_nondict lex d (List.range d.length) h)

/-- C2, counterexample: running the same one-paragraph article (one
attributive adjective `gut` on a female-tagged noun, lexicon entry
`gut ↦ [1,1,1,1]`) twice. The claim predicts that after the second article
the female sentiment sum is the previous cumulative total `[1,1,1,1]` plus
the article's own `[1,1,1,1]`, and the female match counter `1 + 1`; the
code resets both per article, leaving `[1,1,1,1]` and `1`. -/
theorem claim_C2_counterexample :
    (mainStep lexGut zeroStats [adjDoc]).glean.female_glean = [1, 1, 1, 1] ∧
    (mainStep lexGut (mainStep lexGut zeroStats [adjDoc]) [adjDoc]).glean.female_glean
      = [1, 1, 1, 1] ∧
    ([1, 1, 1, 1] : List ℚ) ≠ [1 + 1, 1 + 1, 1 + 1, 1 + 1] ∧
    (mainStep lexGut zeroStats [adjDoc]).descr.num_matches_f = 1 ∧
    (mainStep lexGut (mainStep lexGut zeroStats [adjDoc]) [adjDoc]).descr.num_matches_f = 1 ∧
    (1 : Int) ≠ 1 + 1 := by
  refine ⟨?_, ?_, by norm_num, by decide, by decide, by decide⟩ <;>
  simp +decide [mainStep, carryOver, parse_descriptors, processToken, tokenAction,
    classifyToken, mkAdds, applyAction, add_descriptor, gleanAdd, descrAdd,
    obtain_gender_occurrences, primaryOcc, walkConj, findConjChild, childrenIdx, tokAt,
    adjDoc, lexGut, zeroStats, gleanInit, descrInit, truthyOpt, cjCond, cdCond, is_nom,
    svpAdvScan, nestedWalk, njCond, nestedVerbScan, TARGET_POS, GOcc.add_def,
    List.range_succ]

/-- C2, amended: across articles the accumulator is carried forward
additively only in its dict-valued components — after each article every
descriptor-dict entry equals the previous cumulative value plus that
article's own contribution — while the per-gender sentiment sums, the
per-gender match counters and the negation counter are reset at the start
of each article (main.py lines 263-267 re-create them at their zero
defaults), so after an article they hold that article's values alone,
independent of the previous cumulative state. -/
theorem claim_C2 (lex : Lexicon) (prev : Statistics) (article : List Doc) (k : String) :
    ((mainStep lex prev article).descr.female_descriptors k
      = prev.descr.female_descriptors k
        + (mainStep lex zeroStats article).descr.female_descriptors k) ∧
    ((mainStep lex prev article).descr.male_descriptors k
      = prev.descr.male_descriptors k
        + (mainStep lex zeroStats article).descr.male_descriptors k) ∧
    ((mainStep lex prev article).descr.ud_descriptors k
      = prev.descr.ud_descriptors k
        + (mainStep lex zeroStats article).descr.ud_descriptors k) ∧
    (mainStep lex prev article).glean = (mainStep lex zeroStats article).glean ∧
    (mainStep lex prev article).descr.num_matches_f
      = (mainStep lex zeroStats article).descr.num_matches_f ∧
    (mainStep lex prev article).descr.num_matches_m
      = (mainStep lex zeroStats article).descr.num_matches_m ∧
    (mainStep lex prev article).descr.num_matches_na
      = (mainStep lex zeroStats article).descr.num_matches_na ∧
    (mainStep lex prev article).descr.num_neg
      = (mainStep lex zeroStats article).descr.num_neg := by
  have hnd : EqNonDict (mainStep lex prev article) (mainStep lex zeroStats article) :=
    foldDocs_nondict lex article ⟨rfl, rfl, rfl, rfl, rfl⟩
  obtain ⟨n1, n2, n3, n4, n5⟩ := hnd
  obtain ⟨d1, d2, d3⟩ := foldDocs_dicts lex article (carryOver prev) k
  obtain ⟨e1, e2, e3⟩ := foldDocs_dicts lex article (carryOver zeroStats) k
  refine ⟨?_, ?_, ?_, n5, n1, n2, n3, n4⟩
  · show (article.foldl (fun s doc => parse_descriptors lex doc s)
        (carryOver prev)).descr.female_descriptors k = _
    rw [d1]
    show _ = prev.descr.female_descriptors k
      + (article.foldl (fun s doc => parse_descriptors lex doc s)
          (carryOver zeroStats)).descr.female_descriptors k
    rw [e1]
    show prev.descr.female_descriptors k + articleDelta _ article k
      = prev.descr.female_descriptors k + ((0 : Int) + articleDelta _ article k)
    ring
  · show (article.foldl (fun s doc => parse_descriptors lex doc s)
        (carryOver prev)).descr.male_descriptors k = _
    rw [d2]
    show _ = prev.descr.male_descriptors k
      + (article.foldl (fun s doc => parse_descriptors lex doc s)
          (carryOver zeroStats)).descr.male_descriptors k
    rw [e2]
    show prev.descr.male_descriptors k + articleDelta _ article k
      = prev.descr.male_descriptors k + ((0 : Int) + articleDelta _ article k)
    ring
  · show (article.foldl (fun s doc => parse_descriptors lex doc s)
        (carryOver prev)).descr.ud_descriptors k = _
    rw [d3]
    show _ = prev.descr.ud_descriptors k
      + (article.foldl (fun s doc => parse_descriptors lex doc s)
          (carryOver zeroStats)).descr.ud_descriptors k
    rw [e3]
    show prev.descr.ud_descriptors k + articleDelta _ article k
      = prev.descr.ud_descriptors k + ((0 : Int) + articleDelta _ article k)
    ring

/-- C7: in the finite-verb-with-nominative-subject pattern, a
separable-verb-particle child (dependency `svp`) of the verb makes the
recorded descriptor lemma the particle's lowercased lemma concatenated
directly — `SVP_DELIMITER` is the empty string — with the verb's
lowercased lemma, as a single record (descr_pars.py lines 9, 125-137, 176):
on `svpDoc vl pl` exactly one descriptor is recorded, under the key
`strLower pl ++ strLower vl`, and under no other key. -/
theorem claim_C7 (lex : Lexicon) (vl pl : String) :
    tokenAction (svpDoc vl pl) 1 = .adds [(strLower pl ++ strLower vl, ⟨1, 0, 0⟩)] ∧
    (parse_descriptors lex (svpDoc vl pl) zeroStats).descr.female_descriptors
      (strLower pl ++ strLower vl) = 1 ∧
    (∀ k, k ≠ strLower pl ++ strLower vl →
      (parse_descriptors lex (svpDoc vl pl) zeroStats).descr.female_descriptors k = 0) := by
  have he : strLower pl ++ SVP_DELIMITER = strLower pl := String.append_empty _
  have hact : tokenAction (svpDoc vl pl) 1
      = .adds [((strLower pl ++ SVP_DELIMITER) ++ strLower vl, ⟨1, 0, 0⟩)] := rfl
  rw [he] at hact
  have hparse : (parse_descriptors lex (svpDoc vl pl) zeroStats).descr
      = descrAdd ((strLower pl ++ SVP_DELIMITER) ++ strLower vl) ⟨1, 0, 0⟩
          zeroStats.descr := rfl
  rw [he] at hparse
  refine ⟨hact, ?_, ?_⟩
  · rw [hparse]; simp [descrAdd, zeroStats, descrInit]
  · intro k hk; rw [hparse]; simp [descrAdd, zeroStats, descrInit, Function.update_noteq hk]

/-- C7, witness: particle `auf` with verb lemma `stehen` yields the single
descriptor `aufstehen`, and neither `stehen` nor `auf` separately. -/
theorem claim_C7_witness :
    tokenAction (svpDoc "stehen" "auf") 1 = .adds [("aufstehen", ⟨1, 0, 0⟩)] ∧
    (parse_descriptors lexEmpty (svpDoc "stehen" "auf") zeroStats).descr.female_descriptors
      "aufstehen" = 1 ∧
    (parse_descriptors lexEmpty (svpDoc "stehen" "auf") zeroStats).descr.female_descriptors
      "stehen" = 0 ∧
    (parse_descriptors lexEmpty (svpDoc "stehen" "auf") zeroStats).descr.female_descriptors
      "auf" = 0 := by
  obtain ⟨h1, h2, h3⟩ := claim_C7 lexEmpty "stehen" "auf"
  have hk : strLower "auf" ++ strLower "stehen" = "aufstehen" := by decide
  rw [hk] at h1 h2
  exact ⟨h1, h2, h3 "stehen" (by decide), h3 "auf" (by decide)⟩

end CBAGD
